import Mathlib

/-!
Shallow embedding of the API-gateway chargeback backend (src/main.py and
src/schemas.py) and proofs about its chargeback engine, period resolver and
usage aggregator.

Modelling conventions:
* Timestamps are integers (seconds); only their linear order matters to the
  code.  `month_bounds` produces calendar dates, converted to timestamps by
  `dateToTs` (midnight of the date, 86400 seconds per day), mirroring how the
  Python `datetime` values produced by `month_bounds` compare against stored
  event timestamps.
* Python floats are modelled as rationals; `round(x, 6)` is modelled by
  `round6`, rounding half-to-even at six decimal places, which is the decimal
  rounding Python's `round` performs.
* The MongoDB record store is a `Store` of five record lists.  Reads are
  modelled by store operations that thread the store state, so that the
  read-only character of the chargeback endpoint is a provable statement and
  not a tautology of the embedding; `ingest_usage` shows a state-mutating
  operation in the same vocabulary.
* `datetime.strptime(period + "-01", "%Y-%m-%d")` is modelled by
  `parsePeriod`: exactly four digit characters for the year, a dash, and a
  month matching the strptime month pattern, which accepts one OR two digits
  (months 1-9 may be written without a leading zero); the trailing "-01"
  always matches the day pattern.  The year pattern is the regex \d\d\d\d
  compiled WITHOUT re.ASCII, so a year digit is any Unicode decimal digit
  (category Nd, modelled by `decDigit?` from the Unicode 15.0 table used by
  current CPython), and int() converts such digits by their decimal value;
  the month and day patterns spell out ASCII digit alternatives, so they are
  ASCII-only.  A year of 0000 (in any digit script) is rejected by the
  datetime constructor (MINYEAR is 1).  Tokens of any other shape make
  strptime raise, which the code turns into the invalid-period client
  error.
-/

namespace GatewayChargeback

/-- Calendar date (year, month, day), as produced by the period resolver. -/
structure Date where
  year : Nat
  month : Nat
  day : Nat
  deriving DecidableEq, Repr

/-- Error outcome of an endpoint, matching the HTTP 400 raised for a bad
period token. -/
inductive Err where
  | invalidPeriod
  deriving DecidableEq, Repr

/-- Record of the apiservice collection (schemas.ApiService). -/
structure ApiService where
  name : String
  version : String
  owner : Option String
  lifecycle_stage : String
  rate_limit_per_min : Option Int
  status : String
  deriving DecidableEq, Repr

/-- Record of the plan collection (schemas.Plan), with its store identifier.
Prices are rationals modelling the Python floats. -/
structure Plan where
  id : String
  name : String
  tier : String
  monthly_price : Rat
  included_calls : Int
  overage_price_per_call : Rat
  deriving DecidableEq, Repr

/-- Record of the consumer collection (schemas.Consumer). -/
structure Consumer where
  name : String
  email : String
  company : Option String
  plan_id : Option String
  deriving DecidableEq, Repr

/-- Record of the subscription collection (schemas.Subscription).  The
creation endpoint always fills start_date, so it is total here. -/
structure Subscription where
  consumer_id : String
  api_id : String
  plan_id : String
  start_date : Int
  status : String
  deriving DecidableEq, Repr

/-- Record of the usageevent collection (schemas.UsageEvent). -/
structure UsageEvent where
  api_id : String
  consumer_id : String
  timestamp : Int
  latency_ms : Option Int
  status_code : Int
  bytes_in : Option Int
  bytes_out : Option Int
  deriving DecidableEq, Repr

/-- The record store: the five MongoDB collections used by the service. -/
structure Store where
  apiservices : List ApiService
  plans : List Plan
  consumers : List Consumer
  subs : List Subscription
  events : List UsageEvent
  deriving DecidableEq, Repr

/-- One line of the chargeback report (schemas.Chargeback). -/
structure ChargebackLine where
  consumer_id : String
  api_id : String
  plan_id : String
  period : String
  calls : Nat
  overage_calls : Int
  amount : Rat
  deriving DecidableEq, Repr

/-- Result of the chargeback endpoint. -/
structure Report where
  period : String
  items : List ChargebackLine
  deriving DecidableEq, Repr

/-- Result of the metrics overview endpoint. -/
structure Overview where
  total_calls : Nat
  avg_latency_ms : Option Rat
  success_rate : Option Rat
  apis : Nat
  consumers : Nat
  active_subscriptions : Nat
  deriving DecidableEq, Repr

deriving instance DecidableEq for Except

/-! Store operations (the collaborator contract of section 6 of the design).
Reads return their result together with the unchanged store; the insert
operation returns a modified store. -/

/-- Models db.plan.find() with no filter. -/
def Store.findAllPlans (st : Store) : List Plan × Store :=
  (st.plans, st)

/-- Models db.subscription.find(filter). -/
def Store.findSubsFilter (st : Store) (f : Subscription → Bool) :
    List Subscription × Store :=
  (st.subs.filter f, st)

/-- Models db.usageevent.count_documents(filter). -/
def Store.countEventsFilter (st : Store) (f : UsageEvent → Bool) :
    Nat × Store :=
  ((st.events.filter f).length, st)

/-- Models create_document("usageevent", data), the write performed by the
POST /usage endpoint. -/
def Store.insertEvent (st : Store) (ev : UsageEvent) : Store :=
  { st with events := st.events ++ [ev] }

/-- Models the POST /usage endpoint body once the timestamp default is
resolved. -/
def ingest_usage (ev : UsageEvent) (st : Store) : Store :=
  st.insertEvent ev

/-! Period resolver (month_bounds in main.py). -/

/-- Numeric value of an ASCII digit character. -/
def digitVal (c : Char) : Nat := c.toNat - 48

/-- First code points of the runs of ten consecutive decimal digits that
make up the Unicode category Nd (Unicode 15.0, the table of current
CPython): each run starts at the digit-zero character of a script.  The
regex class matched by the year pattern of strptime is exactly this
category. -/
def ndRangeStarts : List Nat :=
  [0x0030, 0x0660, 0x06F0, 0x07C0, 0x0966, 0x09E6, 0x0A66, 0x0AE6,
   0x0B66, 0x0BE6, 0x0C66, 0x0CE6, 0x0D66, 0x0DE6, 0x0E50, 0x0ED0,
   0x0F20, 0x1040, 0x1090, 0x17E0, 0x1810, 0x1946, 0x19D0, 0x1A80,
   0x1A90, 0x1B50, 0x1BB0, 0x1C40, 0x1C50, 0xA620, 0xA8D0, 0xA900,
   0xA9D0, 0xA9F0, 0xAA50, 0xABF0, 0xFF10, 0x104A0, 0x10D30, 0x11066,
   0x110F0, 0x11136, 0x111D0, 0x112F0, 0x11450, 0x114D0, 0x11650,
   0x116C0, 0x11730, 0x118E0, 0x11950, 0x11C50, 0x11D50, 0x11DA0,
   0x11F50, 0x16A60, 0x16AC0, 0x16B50, 0x1D7CE, 0x1D7D8, 0x1D7E2,
   0x1D7EC, 0x1D7F6, 0x1E140, 0x1E2F0, 0x1E4F0, 0x1E950, 0x1FBF0]

/-- Decimal value of a Unicode decimal digit (category Nd), none for any
other character: the digits matched by \d in CPython's Unicode regex mode
and converted by int(). -/
def decDigit? (c : Char) : Option Nat :=
  match ndRangeStarts.find? (fun s => decide (s ≤ c.toNat) && decide (c.toNat ≤ s + 9)) with
  | some s => some (c.toNat - s)
  | none => none

/-- Value of a four-digit year field, where each digit may be any Unicode
decimal digit (the strptime year pattern); none when some character is not
a decimal digit. -/
def parseYear4 (y1 y2 y3 y4 : Char) : Option Nat :=
  match decDigit? y1, decDigit? y2, decDigit? y3, decDigit? y4 with
  | some d1, some d2, some d3, some d4 => some (1000 * d1 + 100 * d2 + 10 * d3 + d4)
  | _, _, _, _ => none

/-- Models datetime.strptime(period + "-01", "%Y-%m-%d"): the year is
exactly four Unicode decimal digits (and the resulting year must be at
least 1, since year 0000 makes the datetime constructor raise), the month
is one or two ASCII digits with value 1-12 per the strptime month pattern,
and the appended "-01" supplies the day.  Returns the (year, month) pair on
success. -/
def parsePeriod (t : String) : Option (Nat × Nat) :=
  match t.data with
  | [y1, y2, y3, y4, '-', m1, m2] =>
    match parseYear4 y1 y2 y3 y4 with
    | none => none
    | some y =>
      if y = 0 then none
      else if m1 = '1' ∧ 48 ≤ m2.toNat ∧ m2.toNat ≤ 50 then some (y, 10 + digitVal m2)
      else if m1 = '0' ∧ 49 ≤ m2.toNat ∧ m2.toNat ≤ 57 then some (y, digitVal m2)
      else none
  | [y1, y2, y3, y4, '-', m1] =>
    match parseYear4 y1 y2 y3 y4 with
    | none => none
    | some y =>
      if 49 ≤ m1.toNat ∧ m1.toNat ≤ 57 then
        if y = 0 then none else some (y, digitVal m1)
      else none
  | _ => none

/-- Models month_bounds in main.py: parse the period, take the first day of
the month as start, and roll to the first day of the following month (January
of the next year after December) as end. -/
def month_bounds (t : String) : Option (Date × Date) :=
  match parsePeriod t with
  | none => none
  | some (y, m) =>
    if m = 12 then some (⟨y, m, 1⟩, ⟨y + 1, 1, 1⟩)
    else some (⟨y, m, 1⟩, ⟨y, m + 1, 1⟩)

/-! Proleptic Gregorian calendar arithmetic, as implemented inside Python's
datetime module (which month_bounds relies on for date comparisons). -/

/-- Gregorian leap-year rule (datetime._is_leap). -/
def isLeap (y : Nat) : Bool :=
  decide ((y % 4 = 0 ∧ y % 100 ≠ 0) ∨ y % 400 = 0)

/-- Length of a calendar month (datetime._days_in_month). -/
def daysInMonth (y m : Nat) : Nat :=
  if m = 2 then (if isLeap y then 29 else 28)
  else if m = 4 ∨ m = 6 ∨ m = 9 ∨ m = 11 then 30
  else 31

/-- Days before the first of a given month within a year
(datetime._days_before_month, cumulative table plus leap correction). -/
def daysBeforeMonth (y m : Nat) : Nat :=
  (match m with
   | 1 => 0 | 2 => 31 | 3 => 59 | 4 => 90 | 5 => 120 | 6 => 151
   | 7 => 181 | 8 => 212 | 9 => 243 | 10 => 273 | 11 => 304 | 12 => 334
   | _ => 0)
  + (if 2 < m ∧ isLeap y = true then 1 else 0)

/-- Days before January 1 of a given year (datetime._days_before_year). -/
def daysBeforeYear (y : Nat) : Nat :=
  (y - 1) * 365 + (y - 1) / 4 - (y - 1) / 100 + (y - 1) / 400

/-- Proleptic Gregorian ordinal of a date (datetime.date.toordinal). -/
def toOrdinal (d : Date) : Int :=
  (daysBeforeYear d.year : Int) + (daysBeforeMonth d.year d.month : Int) + (d.day : Int)

/-- Timestamp (seconds) of midnight at the given date; the time value the
datetime objects returned by month_bounds carry into comparisons. -/
def dateToTs (d : Date) : Int :=
  86400 * toOrdinal d

/-! Rounding: Python's round(x, 6). -/

/-- Round a rational to the nearest integer, ties to even (the rounding of
Python's builtin round). -/
def roundHalfEven (q : Rat) : Int :=
  let n := ⌊q⌋
  let r := q - (n : Rat)
  if r < 1/2 then n
  else if 1/2 < r then n + 1
  else if n % 2 = 0 then n else n + 1

/-- Models round(x, 6): round at six decimal places. -/
def round6 (q : Rat) : Rat :=
  ((roundHalfEven (q * 1000000) : Rat)) / 1000000

/-! The chargeback engine (chargeback_report in main.py). -/

/-- Selection predicate of the subscription query
{"status": "active", "start_date": {"$lte": end}}. -/
def eligibleSub (endTs : Int) (s : Subscription) : Bool :=
  s.status == "active" && decide (s.start_date ≤ endTs)

/-- Predicate of the usage-count query: same consumer, same api, timestamp in
the half-open interval [start, end). -/
def eventMatches (cid aid : String) (startTs endTs : Int) (ev : UsageEvent) : Bool :=
  ev.consumer_id == cid && ev.api_id == aid &&
    decide (startTs ≤ ev.timestamp) && decide (ev.timestamp < endTs)

/-- Billing fields of a resolved plan; the three keys the engine reads. -/
structure Pricing where
  monthly_price : Rat
  included_calls : Int
  overage_price_per_call : Rat
  deriving DecidableEq, Repr

/-- Plan lookup in the preloaded mapping, with the zero-cost fallback used
when the plan id is absent (lines 292-294 of main.py). -/
def resolvePlan (plans : List Plan) (pid : String) : Pricing :=
  match plans.find? (fun p => p.id == pid) with
  | some p => ⟨p.monthly_price, p.included_calls, p.overage_price_per_call⟩
  | none => ⟨0, 0, 0⟩

/-- Loop body of chargeback_report given the usage count: overage and amount
arithmetic and assembly of the report line (lines 301-313 of main.py). -/
def lineOfCount (plans : List Plan) (period : String) (s : Subscription)
    (usage_count : Nat) : ChargebackLine :=
  let pr := resolvePlan plans s.plan_id
  let overage : Int := max 0 ((usage_count : Int) - pr.included_calls)
  { consumer_id := s.consumer_id
    api_id := s.api_id
    plan_id := s.plan_id
    period := period
    calls := usage_count
    overage_calls := overage
    amount := round6 (pr.monthly_price + (overage : Rat) * pr.overage_price_per_call) }

/-- The report line of one subscription, phrased against the event list; used
to specify the loop. -/
def chargebackLine (plans : List Plan) (events : List UsageEvent) (period : String)
    (startTs endTs : Int) (s : Subscription) : ChargebackLine :=
  lineOfCount plans period s
    ((events.filter (eventMatches s.consumer_id s.api_id startTs endTs)).length)

/-- The subscription loop of chargeback_report: one usage-count query per
subscription, threading the store. -/
def chargebackItems (plans : List Plan) (period : String) (startTs endTs : Int) :
    List Subscription → Store → List ChargebackLine × Store
  | [], st => ([], st)
  | s :: rest, st =>
    let cnt := st.countEventsFilter (eventMatches s.consumer_id s.api_id startTs endTs)
    let line := lineOfCount plans period s cnt.1
    let restRes := chargebackItems plans period startTs endTs rest cnt.2
    (line :: restRes.1, restRes.2)

/-- Models the GET /chargeback endpoint (chargeback_report in main.py):
resolve the period, preload all plans, select the eligible subscriptions, and
emit one line per selected subscription. -/
def chargeback_report (period : String) (st : Store) : Except Err (Report × Store) :=
  match month_bounds period with
  | none => .error .invalidPeriod
  | some (ds, de) =>
    let startTs := dateToTs ds
    let endTs := dateToTs de
    let plansRes := st.findAllPlans
    let subsRes := plansRes.2.findSubsFilter (eligibleSub endTs)
    let itemsRes := chargebackItems plansRes.1 period startTs endTs subsRes.1 subsRes.2
    .ok ({ period := period, items := itemsRes.1 }, itemsRes.2)

/-! The usage aggregator (metrics_overview in main.py). -/

/-- Time filter of the overview query: no period means no filter, a period
restricts to the half-open interval. -/
def overviewFilter (bounds : Option (Int × Int)) (ev : UsageEvent) : Bool :=
  match bounds with
  | none => true
  | some (s, e) => decide (s ≤ ev.timestamp) && decide (ev.timestamp < e)

/-- Core aggregation of metrics_overview: count, then the single-group
pipeline result.  The pipeline yields no group when no event matches, so
avg_latency is null and success is 0 in that case (the agg-empty conditional
of the code, inlined into each field here); otherwise avg_latency averages
the non-null latencies (null when none carry a latency) and success counts
the events with status_code < 400.  The derived success rate divides by
total_calls and is null when total_calls is 0. -/
def overviewCore (st : Store) (bounds : Option (Int × Int)) : Overview :=
  let matched := st.events.filter (overviewFilter bounds)
  let total_calls := matched.length
  let lats : List Int := matched.filterMap (fun ev => ev.latency_ms)
  let avg_latency : Option Rat :=
    if matched.isEmpty then none
    else if lats.isEmpty then none
    else some ((lats.map (fun z => (z : Rat))).sum / (lats.length : Rat))
  let success : Nat :=
    if matched.isEmpty then 0
    else (matched.filter (fun ev => decide (ev.status_code < 400))).length
  { total_calls := total_calls
    avg_latency_ms := avg_latency
    success_rate :=
      if total_calls = 0 then none else some ((success : Rat) / (total_calls : Rat))
    apis := st.apiservices.length
    consumers := st.consumers.length
    active_subscriptions := (st.subs.filter (fun s => s.status == "active")).length }

/-- Models the GET /metrics/overview endpoint: optional period resolved by
month_bounds (failing fast on a bad token), then the aggregation. -/
def metrics_overview (periodQ : Option String) (st : Store) :
    Except Err (Overview × Store) :=
  match periodQ with
  | none => .ok (overviewCore st none, st)
  | some p =>
    match month_bounds p with
    | none => .error .invalidPeriod
    | some (ds, de) => .ok (overviewCore st (some (dateToTs ds, dateToTs de)), st)

/-- Modelled from the spec: the literal token pattern YYYY-MM, four year
digits, a dash, and a two-digit month 01-12.  Used to compare the spec's
stated validity condition with the parser the code actually runs. -/
def specPeriodPattern (t : String) : Bool :=
  match t.data with
  | [y1, y2, y3, y4, '-', m1, m2] =>
    decide ((48 ≤ y1.toNat ∧ y1.toNat ≤ 57) ∧ (48 ≤ y2.toNat ∧ y2.toNat ≤ 57) ∧
            (48 ≤ y3.toNat ∧ y3.toNat ≤ 57) ∧ (48 ≤ y4.toNat ∧ y4.toNat ≤ 57) ∧
            ((m1 = '0' ∧ 49 ≤ m2.toNat ∧ m2.toNat ≤ 57) ∨
             (m1 = '1' ∧ 48 ≤ m2.toNat ∧ m2.toNat ≤ 50)))
  | _ => false

/-! Concrete stores used to instantiate the theorems. -/

/-- A populated sample store: one plan, an active subscription with usage in
January 2024 (including both boundary instants), a paused subscription, and
an active subscription pointing at a missing plan. -/
def storeA : Store :=
  { apiservices := [⟨"payments", "v1", none, "deploy", none, "healthy"⟩]
    plans := [⟨"p1", "Pro", "pro", 100, 2, 1/2000⟩]
    consumers := [⟨"Ada", "ada@example.com", none, some "p1"⟩]
    subs := [⟨"c1", "a1", "p1", 10, "active"⟩,
             ⟨"c2", "a1", "p1", 10, "paused"⟩,
             ⟨"c3", "a1", "pX", 20, "active"⟩]
    events := [⟨"a1", "c1", dateToTs ⟨2024, 1, 1⟩, some 100, 200, some 0, some 0⟩,
               ⟨"a1", "c1", dateToTs ⟨2024, 1, 1⟩ + 5, none, 500, some 10, some 20⟩,
               ⟨"a1", "c1", dateToTs ⟨2024, 1, 15⟩, some 140, 200, some 0, some 0⟩,
               ⟨"a1", "c1", dateToTs ⟨2024, 2, 1⟩ - 1, some 60, 404, some 0, some 0⟩,
               ⟨"a1", "c1", dateToTs ⟨2024, 2, 1⟩, some 10, 200, some 0, some 0⟩,
               ⟨"a1", "c3", dateToTs ⟨2024, 1, 2⟩, none, 200, some 0, some 0⟩,
               ⟨"a1", "c3", dateToTs ⟨2024, 1, 3⟩, some 80, 500, some 0, some 0⟩] }

/-- The empty store. -/
def storeEmpty : Store :=
  { apiservices := [], plans := [], consumers := [], subs := [], events := [] }

/-- A store whose only plan carries a monthly price with seven significant
decimal places, finer than the rounding granularity of the report. -/
def store7 : Store :=
  { apiservices := []
    plans := [⟨"p7", "Basic", "basic", (1234567 : Rat) / 10000000, 0, 0⟩]
    consumers := []
    subs := [⟨"c7", "a7", "p7", 0, "active"⟩]
    events := [] }

/-- The report line produced for the first subscription of storeA in
January 2024: four billable calls, two above the allowance, amount
100 + 2 * 0.0005 = 100.001. -/
def lineA1 : ChargebackLine :=
  ⟨"c1", "a1", "p1", "2024-01", 4, 2, (100001 : Rat) / 1000⟩

/-- The report line produced for the dangling-plan subscription of storeA in
January 2024: two calls, all overage, zero amount. -/
def lineA3 : ChargebackLine :=
  ⟨"c3", "a1", "pX", "2024-01", 2, 2, 0⟩

/-- The full January 2024 report of storeA. -/
def reportA : Report :=
  ⟨"2024-01", [lineA1, lineA3]⟩

/-! Helper lemmas shared by the claim theorems. -/

/-- A successful parse yields a positive year and a month between 1 and 12. -/
lemma parsePeriod_bounds {t : String} {y m : Nat}
    (h : parsePeriod t = some (y, m)) : 1 ≤ y ∧ 1 ≤ m ∧ m ≤ 12 := by
  unfold parsePeriod at h
  split at h
  · split at h
    · exact absurd h (by simp)
    · split_ifs at h with h1 h2 h3 <;>
        simp only [Option.some.injEq, Prod.mk.injEq] at h <;>
        obtain ⟨hy, hm⟩ := h <;> subst hy <;> subst hm <;>
        simp [digitVal] at * <;> omega
  · split at h
    · exact absurd h (by simp)
    · split_ifs at h with h1 h2 <;>
        simp only [Option.some.injEq, Prod.mk.injEq] at h
      obtain ⟨hy, hm⟩ := h
      subst hy; subst hm
      simp [digitVal] at *
      omega
  · exact absurd h (by simp)

/-- The year field accepts any Unicode decimal digits, as CPython's regex
does: the Arabic-Indic spelling of 2024 (code points 0662 0660 0662 0664)
followed by "-01" resolves to January 2024 exactly like "2024-01". -/
lemma month_bounds_unicode_year :
    month_bounds "\u0662\u0660\u0662\u0664-01" =
      some (⟨2024, 1, 1⟩, ⟨2024, 2, 1⟩) := by
  decide!

/-- Ordinal distance from the first of a month to the first of the next
month inside the same year. -/
lemma ord_mid (y m : Nat) (hm1 : 1 ≤ m) (hm2 : m < 12) :
    toOrdinal ⟨y, m + 1, 1⟩ - toOrdinal ⟨y, m, 1⟩ = daysInMonth y m := by
  interval_cases m <;>
    by_cases hL : isLeap y = true <;>
    simp [toOrdinal, daysBeforeMonth, daysInMonth, hL] <;>
    omega

set_option maxHeartbeats 1000000 in
/-- Ordinal distance from December 1 to January 1 of the next year. -/
lemma ord_dec (y : Nat) (hy : 1 ≤ y) :
    toOrdinal ⟨y + 1, 1, 1⟩ - toOrdinal ⟨y, 12, 1⟩ = daysInMonth y 12 := by
  by_cases hL : isLeap y = true
  · have hp : (y % 4 = 0 ∧ y % 100 ≠ 0) ∨ y % 400 = 0 := by
      simpa [isLeap] using hL
    simp only [toOrdinal]
    have e0 : daysInMonth y 12 = 31 := by simp [daysInMonth]
    have e1 : daysBeforeMonth (y + 1) 1 = 0 := by simp [daysBeforeMonth]
    have e2 : daysBeforeMonth y 12 = 335 := by simp [daysBeforeMonth, hL]
    have e3 : daysBeforeYear (y + 1) = y * 365 + y / 4 - y / 100 + y / 400 := by
      simp [daysBeforeYear]
    rw [e0, e1, e2, e3]
    simp only [daysBeforeYear]
    omega
  · have hp : ¬((y % 4 = 0 ∧ y % 100 ≠ 0) ∨ y % 400 = 0) := by
      simpa [isLeap] using hL
    simp only [toOrdinal]
    have e0 : daysInMonth y 12 = 31 := by simp [daysInMonth]
    have e1 : daysBeforeMonth (y + 1) 1 = 0 := by simp [daysBeforeMonth]
    have e2 : daysBeforeMonth y 12 = 334 := by simp [daysBeforeMonth, hL]
    have e3 : daysBeforeYear (y + 1) = y * 365 + y / 4 - y / 100 + y / 400 := by
      simp [daysBeforeYear]
    rw [e0, e1, e2, e3]
    simp only [daysBeforeYear]
    omega

/-- Structure of a successful month_bounds result: day 1 on both ends, the
December rollover, and the ordinal span of exactly one calendar month. -/
lemma month_bounds_ord {t : String} {ds de : Date}
    (h : month_bounds t = some (ds, de)) :
    ds.day = 1 ∧ de.day = 1 ∧
    ((ds.month = 12 ∧ de.year = ds.year + 1 ∧ de.month = 1) ∨
     (ds.month ≠ 12 ∧ de.year = ds.year ∧ de.month = ds.month + 1)) ∧
    toOrdinal de - toOrdinal ds = daysInMonth ds.year ds.month := by
  unfold month_bounds at h
  cases hp : parsePeriod t with
  | none => rw [hp] at h; exact absurd h (by simp)
  | some ym =>
    obtain ⟨y, m⟩ := ym
    obtain ⟨hy, hm1, hm2⟩ := parsePeriod_bounds hp
    rw [hp] at h
    by_cases h12 : m = 12
    · subst h12
      simp only [if_pos rfl, Option.some.injEq, Prod.mk.injEq] at h
      rcases h with ⟨rfl, rfl⟩
      refine ⟨rfl, rfl, Or.inl ⟨rfl, rfl, rfl⟩, ?_⟩
      exact ord_dec y hy
    · simp only [if_neg h12, Option.some.injEq, Prod.mk.injEq] at h
      rcases h with ⟨rfl, rfl⟩
      refine ⟨rfl, rfl, Or.inr ⟨h12, rfl, rfl⟩, ?_⟩
      exact ord_mid y m hm1 (by omega)

/-- Every month has at least 28 days. -/
lemma daysInMonth_pos (y m : Nat) : 0 < daysInMonth y m := by
  unfold daysInMonth
  split_ifs <;> norm_num

/-- The start timestamp of a resolved period is strictly below its end
timestamp. -/
lemma bounds_lt {t : String} {ds de : Date}
    (h : month_bounds t = some (ds, de)) : dateToTs ds < dateToTs de := by
  have hs := (month_bounds_ord h).2.2.2
  have hpos := daysInMonth_pos ds.year ds.month
  unfold dateToTs
  omega

/-- The subscription loop computes the per-subscription lines of the event
list and leaves the store unchanged. -/
lemma chargebackItems_spec (plans : List Plan) (period : String)
    (startTs endTs : Int) (ls : List Subscription) (st : Store) :
    chargebackItems plans period startTs endTs ls st =
      (ls.map (chargebackLine plans st.events period startTs endTs), st) := by
  induction ls with
  | nil => rfl
  | cons s rest ih =>
    simp [chargebackItems, Store.countEventsFilter, chargebackLine, ih]

/-- Closed form of the chargeback endpoint on a valid period: the report maps
the line computation over the eligible subscriptions and the store is
returned unchanged. -/
lemma chargeback_report_eq {period : String} {ds de : Date} (st : Store)
    (h : month_bounds period = some (ds, de)) :
    chargeback_report period st =
      .ok ({ period := period,
             items := (st.subs.filter (eligibleSub (dateToTs de))).map
               (chargebackLine st.plans st.events period (dateToTs ds) (dateToTs de)) },
           st) := by
  unfold chargeback_report
  rw [h]
  simp [Store.findAllPlans, Store.findSubsFilter, chargebackItems_spec]

/-- Rounding fixes zero. -/
lemma round6_zero : round6 0 = 0 := by
  norm_num [round6, roundHalfEven]

/-- Rounding at six decimals fixes every rational that is an integer multiple
of one millionth. -/
lemma round6_fixed (q : Rat) (k : Int) (hk : q * 1000000 = (k : Rat)) :
    round6 q = q := by
  unfold round6
  rw [hk]
  have h1 : roundHalfEven (k : Rat) = k := by
    unfold roundHalfEven
    norm_num
  rw [h1]
  have h2 : (1000000 : Rat) ≠ 0 := by norm_num
  field_simp
  linarith [hk]

/-! Claim theorems. -/

/-- C3: compute_chargeback emits exactly one line per subscription whose
status equals "active" and whose start_date is at most the resolved period
end (a non-strict comparison, with no lower bound against the period start);
subscriptions with any other status, or starting strictly after end, produce
no line. -/
theorem claim3_subscription_selection (period : String) (st : Store)
    (r : Report) (st' : Store)
    (h : chargeback_report period st = .ok (r, st')) :
    ∃ ds de, month_bounds period = some (ds, de) ∧
      r.items = (st.subs.filter
          (fun s => s.status == "active" && decide (s.start_date ≤ dateToTs de))).map
        (chargebackLine st.plans st.events period (dateToTs ds) (dateToTs de)) := by
  cases hmb : month_bounds period with
  | none =>
    unfold chargeback_report at h
    rw [hmb] at h
    exact absurd h (by simp)
  | some dd =>
    obtain ⟨ds, de⟩ := dd
    refine ⟨ds, de, rfl, ?_⟩
    rw [chargeback_report_eq st hmb] at h
    simp only [Except.ok.injEq, Prod.mk.injEq] at h
    rcases h with ⟨rfl, rfl⟩
    rfl

/-- Witness for C3 at the concrete store storeA and period 2024-01. -/
theorem claim3_witness :
    chargeback_report "2024-01" storeA = .ok (reportA, storeA) ∧
    (∃ ds de, month_bounds "2024-01" = some (ds, de) ∧
      reportA.items = (storeA.subs.filter
          (fun s => s.status == "active" && decide (s.start_date ≤ dateToTs de))).map
        (chargebackLine storeA.plans storeA.events "2024-01"
          (dateToTs ds) (dateToTs de))) :=
  ⟨by decide!, claim3_subscription_selection "2024-01" storeA reportA storeA (by decide!)⟩

/-- C10: the chargeback endpoint is read-only with respect to the record
store: whenever it returns, the final store state equals the initial one (it
performs only find and count operations, never an insert, update or
delete). -/
theorem claim10_read_only (period : String) (st : Store) (r : Report)
    (st' : Store) (h : chargeback_report period st = .ok (r, st')) :
    st' = st := by
  cases hmb : month_bounds period with
  | none =>
    unfold chargeback_report at h
    rw [hmb] at h
    exact absurd h (by simp)
  | some dd =>
    obtain ⟨ds, de⟩ := dd
    rw [chargeback_report_eq st hmb] at h
    simp only [Except.ok.injEq, Prod.mk.injEq] at h
    exact h.2.symm

/-- Witness for C10 at the concrete store storeA and period 2024-01. -/
theorem claim10_witness :
    chargeback_report "2024-01" storeA = .ok (reportA, storeA) ∧ storeA = storeA :=
  ⟨by decide!, claim10_read_only "2024-01" storeA reportA storeA (by decide!)⟩

/-- C1: every emitted line satisfies the billing formula: its call count is
the number of matching usage events, overage_calls = max(0, calls -
included_calls) and amount = round6(monthly_price + overage_calls *
overage_price_per_call), with the fields taken from the resolved plan (the
zero-cost fallback when the plan is missing). -/
theorem claim1_overage_amount_formula (period : String) (st : Store)
    (r : Report) (st' : Store)
    (h : chargeback_report period st = .ok (r, st'))
    (l : ChargebackLine) (hl : l ∈ r.items) :
    ∃ ds de s, month_bounds period = some (ds, de) ∧ s ∈ st.subs ∧
      l.consumer_id = s.consumer_id ∧ l.api_id = s.api_id ∧
      l.plan_id = s.plan_id ∧
      l.calls = (st.events.filter
        (eventMatches s.consumer_id s.api_id (dateToTs ds) (dateToTs de))).length ∧
      l.overage_calls =
        max 0 ((l.calls : Int) - (resolvePlan st.plans s.plan_id).included_calls) ∧
      l.amount = round6 ((resolvePlan st.plans s.plan_id).monthly_price +
        (l.overage_calls : Rat) *
          (resolvePlan st.plans s.plan_id).overage_price_per_call) := by
  cases hmb : month_bounds period with
  | none =>
    unfold chargeback_report at h
    rw [hmb] at h
    exact absurd h (by simp)
  | some dd =>
    obtain ⟨ds, de⟩ := dd
    rw [chargeback_report_eq st hmb] at h
    simp only [Except.ok.injEq, Prod.mk.injEq] at h
    rcases h with ⟨rfl, rfl⟩
    simp only [List.mem_map] at hl
    obtain ⟨s, hs, rfl⟩ := hl
    have hsub : s ∈ st.subs := (List.mem_filter.mp hs).1
    exact ⟨ds, de, s, rfl, hsub, rfl, rfl, rfl, rfl, rfl, rfl⟩

/-- Witness for C1 at the first line of the concrete January 2024 report of
storeA. -/
theorem claim1_witness :
    chargeback_report "2024-01" storeA = .ok (reportA, storeA) ∧
    lineA1 ∈ reportA.items ∧
    (∃ ds de s, month_bounds "2024-01" = some (ds, de) ∧ s ∈ storeA.subs ∧
      lineA1.consumer_id = s.consumer_id ∧ lineA1.api_id = s.api_id ∧
      lineA1.plan_id = s.plan_id ∧
      lineA1.calls = (storeA.events.filter
        (eventMatches s.consumer_id s.api_id (dateToTs ds) (dateToTs de))).length ∧
      lineA1.overage_calls =
        max 0 ((lineA1.calls : Int) - (resolvePlan storeA.plans s.plan_id).included_calls) ∧
      lineA1.amount = round6 ((resolvePlan storeA.plans s.plan_id).monthly_price +
        (lineA1.overage_calls : Rat) *
          (resolvePlan storeA.plans s.plan_id).overage_price_per_call)) :=
  ⟨by decide!, by decide!,
   claim1_overage_amount_formula "2024-01" storeA reportA storeA (by decide!)
     lineA1 (by decide!)⟩

/-- C2: a subscription whose plan_id is absent from the preloaded plan
mapping is billed against the zero-cost fallback plan, so its line has
amount 0 while calls still equals the true usage count and plan_id is the
literal identifier from the subscription; the operation as a whole still
succeeds. -/
theorem claim2_missing_plan_fallback (period : String) (st : Store)
    (ds de : Date) (hmb : month_bounds period = some (ds, de)) :
    ∃ r, chargeback_report period st = .ok (r, st) ∧
      ∀ l ∈ r.items, st.plans.find? (fun p => p.id == l.plan_id) = none →
        l.amount = 0 ∧
        ∃ s, s ∈ st.subs ∧ l.plan_id = s.plan_id ∧
          l.calls = (st.events.filter
            (eventMatches l.consumer_id l.api_id (dateToTs ds) (dateToTs de))).length := by
  refine ⟨_, chargeback_report_eq st hmb, ?_⟩
  intro l hl hfind
  simp only [List.mem_map] at hl
  obtain ⟨s, hs, rfl⟩ := hl
  have hsub : s ∈ st.subs := (List.mem_filter.mp hs).1
  have hfind' : st.plans.find? (fun p => p.id == s.plan_id) = none := hfind
  have hrp : resolvePlan st.plans s.plan_id = ⟨0, 0, 0⟩ := by
    unfold resolvePlan
    rw [hfind']
  constructor
  · show (lineOfCount st.plans period s _).amount = 0
    simp only [lineOfCount, hrp]
    norm_num [round6_zero]
  · exact ⟨s, hsub, rfl, rfl⟩

/-- Witness for C2 at the concrete store storeA, whose third subscription
references the missing plan pX. -/
theorem claim2_witness :
    month_bounds "2024-01" = some (⟨2024, 1, 1⟩, ⟨2024, 2, 1⟩) ∧
    (∃ r, chargeback_report "2024-01" storeA = .ok (r, storeA) ∧
      ∀ l ∈ r.items, storeA.plans.find? (fun p => p.id == l.plan_id) = none →
        l.amount = 0 ∧
        ∃ s, s ∈ storeA.subs ∧ l.plan_id = s.plan_id ∧
          l.calls = (storeA.events.filter
            (eventMatches l.consumer_id l.api_id (dateToTs ⟨2024, 1, 1⟩)
              (dateToTs ⟨2024, 2, 1⟩))).length) :=
  ⟨by decide!,
   claim2_missing_plan_fallback "2024-01" storeA ⟨2024, 1, 1⟩ ⟨2024, 2, 1⟩ (by decide!)⟩

/-- C6: the call count of every emitted line counts exactly the usage events
with the subscription's consumer and api whose timestamp lies in the
half-open interval from start (inclusive) to end (exclusive); an event
stamped exactly at start matches the counting predicate and one stamped
exactly at end does not. -/
theorem claim6_usage_window (period : String) (st : Store) (r : Report)
    (st' : Store) (h : chargeback_report period st = .ok (r, st')) :
    ∃ ds de, month_bounds period = some (ds, de) ∧
      (∀ l ∈ r.items, ∃ s, s ∈ st.subs ∧
        l.consumer_id = s.consumer_id ∧ l.api_id = s.api_id ∧
        l.calls = (st.events.filter (fun ev =>
          ev.consumer_id == s.consumer_id && ev.api_id == s.api_id &&
          decide (dateToTs ds ≤ ev.timestamp) &&
          decide (ev.timestamp < dateToTs de))).length) ∧
      (∀ ev : UsageEvent,
        (ev.timestamp = dateToTs ds →
          eventMatches ev.consumer_id ev.api_id (dateToTs ds) (dateToTs de) ev = true) ∧
        (ev.timestamp = dateToTs de →
          eventMatches ev.consumer_id ev.api_id (dateToTs ds) (dateToTs de) ev = false)) := by
  cases hmb : month_bounds period with
  | none =>
    unfold chargeback_report at h
    rw [hmb] at h
    exact absurd h (by simp)
  | some dd =>
    obtain ⟨ds, de⟩ := dd
    have hlt := bounds_lt hmb
    refine ⟨ds, de, rfl, ?_, ?_⟩
    · rw [chargeback_report_eq st hmb] at h
      simp only [Except.ok.injEq, Prod.mk.injEq] at h
      rcases h with ⟨rfl, rfl⟩
      intro l hl
      simp only [List.mem_map] at hl
      obtain ⟨s, hs, rfl⟩ := hl
      exact ⟨s, (List.mem_filter.mp hs).1, rfl, rfl, rfl⟩
    · intro ev
      constructor
      · intro hts
        simp [eventMatches, hts, hlt]
      · intro hts
        simp [eventMatches, hts]

/-- Witness for C6 at the concrete store storeA, which contains one event at
the period start instant and one at the period end instant. -/
theorem claim6_witness :
    chargeback_report "2024-01" storeA = .ok (reportA, storeA) ∧
    (∃ ds de, month_bounds "2024-01" = some (ds, de) ∧
      (∀ l ∈ reportA.items, ∃ s, s ∈ storeA.subs ∧
        l.consumer_id = s.consumer_id ∧ l.api_id = s.api_id ∧
        l.calls = (storeA.events.filter (fun ev =>
          ev.consumer_id == s.consumer_id && ev.api_id == s.api_id &&
          decide (dateToTs ds ≤ ev.timestamp) &&
          decide (ev.timestamp < dateToTs de))).length) ∧
      (∀ ev : UsageEvent,
        (ev.timestamp = dateToTs ds →
          eventMatches ev.consumer_id ev.api_id (dateToTs ds) (dateToTs de) ev = true) ∧
        (ev.timestamp = dateToTs de →
          eventMatches ev.consumer_id ev.api_id (dateToTs ds) (dateToTs de) ev = false))) :=
  ⟨by decide!, claim6_usage_window "2024-01" storeA reportA storeA (by decide!)⟩

/-- C9: every emitted line satisfies 0 <= overage_calls <= calls, provided
every stored plan satisfies the schema constraint included_calls >= 0 (the
zero-cost fallback satisfies it trivially). -/
theorem claim9_overage_within_calls (period : String) (st : Store)
    (r : Report) (st' : Store)
    (h : chargeback_report period st = .ok (r, st'))
    (hplans : ∀ p ∈ st.plans, 0 ≤ p.included_calls) :
    ∀ l ∈ r.items, 0 ≤ l.overage_calls ∧ l.overage_calls ≤ (l.calls : Int) := by
  cases hmb : month_bounds period with
  | none =>
    unfold chargeback_report at h
    rw [hmb] at h
    exact absurd h (by simp)
  | some dd =>
    obtain ⟨ds, de⟩ := dd
    rw [chargeback_report_eq st hmb] at h
    simp only [Except.ok.injEq, Prod.mk.injEq] at h
    rcases h with ⟨rfl, rfl⟩
    intro l hl
    simp only [List.mem_map] at hl
    obtain ⟨s, hs, rfl⟩ := hl
    have hincl : 0 ≤ (resolvePlan st.plans s.plan_id).included_calls := by
      unfold resolvePlan
      cases hf : st.plans.find? (fun p => p.id == s.plan_id) with
      | none => simp
      | some p => simpa using hplans p (List.mem_of_find?_eq_some hf)
    constructor
    · exact le_max_left 0 _
    · have hcalls :
          (chargebackLine st.plans st.events period (dateToTs ds) (dateToTs de) s).calls =
            (st.events.filter
              (eventMatches s.consumer_id s.api_id (dateToTs ds) (dateToTs de))).length := rfl
      show max 0 (_ - (resolvePlan st.plans s.plan_id).included_calls) ≤ _
      omega

/-- Witness for C9 at the concrete store storeA. -/
theorem claim9_witness :
    chargeback_report "2024-01" storeA = .ok (reportA, storeA) ∧
    (∀ p ∈ storeA.plans, 0 ≤ p.included_calls) ∧
    ∀ l ∈ reportA.items, 0 ≤ l.overage_calls ∧ l.overage_calls ≤ (l.calls : Int) :=
  ⟨by decide!, by decide!,
   claim9_overage_within_calls "2024-01" storeA reportA storeA
     (by decide!) (by decide!)⟩

/-- C5 counterexample: the token "2024-1" does not match the spec's strict
YYYY-MM pattern (two month digits), yet the period resolver accepts it,
because the strptime month pattern also matches a single digit 1-9; so the
claim that every token outside the YYYY-MM pattern fails with InvalidPeriod
is false at this input. -/
theorem claim5_counterexample :
    specPeriodPattern "2024-1" = false ∧
    month_bounds "2024-1" = some (⟨2024, 1, 1⟩, ⟨2024, 2, 1⟩) := by
  exact ⟨by decide!, by decide!⟩

/-- C5 (amended): every token rejected by the lenient strptime shape (four
year digits forming a year of at least 1, a dash, and a month 1-12 written
with one or two digits) fails with InvalidPeriod, and in compute_chargeback
the failure is decided before any record-store access: the same error is
returned for every store state.  In particular "2024-13", "abcd" and
"2024/01" all fail. -/
theorem claim5_amended_invalid_period (t : String)
    (hp : parsePeriod t = none) :
    month_bounds t = none ∧
    ∀ st : Store, chargeback_report t st = .error Err.invalidPeriod := by
  have hmb : month_bounds t = none := by
    unfold month_bounds
    rw [hp]
  refine ⟨hmb, fun st => ?_⟩
  unfold chargeback_report
  rw [hmb]

/-- Witness for the amended C5 at the three malformed tokens named by the
spec. -/
theorem claim5_witness :
    parsePeriod "2024-13" = none ∧ month_bounds "2024-13" = none ∧
    chargeback_report "2024-13" storeA = .error Err.invalidPeriod ∧
    parsePeriod "abcd" = none ∧ month_bounds "abcd" = none ∧
    parsePeriod "2024/01" = none ∧ month_bounds "2024/01" = none := by
  have h13 := claim5_amended_invalid_period "2024-13" (by decide!)
  have habcd := claim5_amended_invalid_period "abcd" (by decide!)
  have hslash := claim5_amended_invalid_period "2024/01" (by decide!)
  exact ⟨by decide!, h13.1, h13.2 storeA, by decide!, habcd.1, by decide!, hslash.1⟩

/-- C7 counterexample: in store7 the only plan has monthly_price 0.1234567
(seven decimal places) and its active subscription has no usage events at
all; the emitted line has overage_calls = 0 but amount 0.123457, which
differs from monthly_price because the report rounds amounts to six decimal
places.  So "amount equals monthly_price exactly" is false at this input. -/
theorem claim7_counterexample :
    chargeback_report "2024-01" store7 =
      .ok (⟨"2024-01",
            [⟨"c7", "a7", "p7", "2024-01", 0, 0, (123457 : Rat) / 1000000⟩]⟩,
           store7) ∧
    (123457 : Rat) / 1000000 ≠ (1234567 : Rat) / 10000000 ∧
    (resolvePlan store7.plans "p7").monthly_price = (1234567 : Rat) / 10000000 := by
  exact ⟨by decide!, by decide!, by decide!⟩

/-- C7 (amended): for every emitted line whose subscription has zero
matching usage events, overage_calls = 0 and amount = round6(monthly_price)
of the resolved plan — which equals monthly_price exactly whenever
monthly_price is an integer multiple of one millionth — provided the stored
plans obey the schema constraint included_calls >= 0. -/
theorem claim7_amended_no_usage (period : String) (st : Store) (r : Report)
    (st' : Store) (h : chargeback_report period st = .ok (r, st'))
    (hplans : ∀ p ∈ st.plans, 0 ≤ p.included_calls) :
    ∃ ds de, month_bounds period = some (ds, de) ∧
      ∀ l ∈ r.items,
        (st.events.filter
          (eventMatches l.consumer_id l.api_id (dateToTs ds) (dateToTs de))).length = 0 →
        l.overage_calls = 0 ∧
        l.amount = round6 ((resolvePlan st.plans l.plan_id).monthly_price) ∧
        (∀ k : Int,
          (resolvePlan st.plans l.plan_id).monthly_price * 1000000 = (k : Rat) →
          l.amount = (resolvePlan st.plans l.plan_id).monthly_price) := by
  cases hmb : month_bounds period with
  | none =>
    unfold chargeback_report at h
    rw [hmb] at h
    exact absurd h (by simp)
  | some dd =>
    obtain ⟨ds, de⟩ := dd
    rw [chargeback_report_eq st hmb] at h
    simp only [Except.ok.injEq, Prod.mk.injEq] at h
    rcases h with ⟨rfl, rfl⟩
    refine ⟨ds, de, rfl, ?_⟩
    intro l hl hzero
    simp only [List.mem_map] at hl
    obtain ⟨s, hs, rfl⟩ := hl
    have hz' : (st.events.filter
        (eventMatches s.consumer_id s.api_id (dateToTs ds) (dateToTs de))).length = 0 :=
      hzero
    have hincl : 0 ≤ (resolvePlan st.plans s.plan_id).included_calls := by
      unfold resolvePlan
      cases hf : st.plans.find? (fun p => p.id == s.plan_id) with
      | none => simp
      | some p => simpa using hplans p (List.mem_of_find?_eq_some hf)
    have hov : (chargebackLine st.plans st.events period (dateToTs ds) (dateToTs de) s).overage_calls =
        max 0 (((st.events.filter
          (eventMatches s.consumer_id s.api_id (dateToTs ds) (dateToTs de))).length : Int) -
          (resolvePlan st.plans s.plan_id).included_calls) := rfl
    rw [hz'] at hov
    have hov0 : (chargebackLine st.plans st.events period (dateToTs ds) (dateToTs de) s).overage_calls = 0 := by
      rw [hov]
      omega
    refine ⟨hov0, ?_, ?_⟩
    · have ham : (chargebackLine st.plans st.events period (dateToTs ds) (dateToTs de) s).amount =
          round6 ((resolvePlan st.plans s.plan_id).monthly_price +
            ((chargebackLine st.plans st.events period (dateToTs ds) (dateToTs de) s).overage_calls : Rat) *
              (resolvePlan st.plans s.plan_id).overage_price_per_call) := rfl
      rw [ham, hov0]
      norm_num
      rfl
    · intro k hk
      have ham : (chargebackLine st.plans st.events period (dateToTs ds) (dateToTs de) s).amount =
          round6 ((resolvePlan st.plans s.plan_id).monthly_price +
            ((chargebackLine st.plans st.events period (dateToTs ds) (dateToTs de) s).overage_calls : Rat) *
              (resolvePlan st.plans s.plan_id).overage_price_per_call) := rfl
      rw [ham, hov0]
      have hk' : (resolvePlan st.plans s.plan_id).monthly_price * 1000000 = (k : Rat) := hk
      have := round6_fixed ((resolvePlan st.plans s.plan_id).monthly_price) k hk'
      simpa using this

/-- Witness for the amended C7 at the concrete store store7, whose only
subscription has no usage events. -/
theorem claim7_witness :
    chargeback_report "2024-01" store7 =
      .ok (⟨"2024-01",
            [⟨"c7", "a7", "p7", "2024-01", 0, 0, (123457 : Rat) / 1000000⟩]⟩,
           store7) ∧
    (∀ p ∈ store7.plans, 0 ≤ p.included_calls) ∧
    (∃ ds de, month_bounds "2024-01" = some (ds, de) ∧
      ∀ l ∈ (⟨"2024-01",
              [⟨"c7", "a7", "p7", "2024-01", 0, 0, (123457 : Rat) / 1000000⟩]⟩ : Report).items,
        (store7.events.filter
          (eventMatches l.consumer_id l.api_id (dateToTs ds) (dateToTs de))).length = 0 →
        l.overage_calls = 0 ∧
        l.amount = round6 ((resolvePlan store7.plans l.plan_id).monthly_price) ∧
        (∀ k : Int,
          (resolvePlan store7.plans l.plan_id).monthly_price * 1000000 = (k : Rat) →
          l.amount = (resolvePlan store7.plans l.plan_id).monthly_price)) :=
  ⟨by decide!, by decide!,
   claim7_amended_no_usage "2024-01" store7
     ⟨"2024-01", [⟨"c7", "a7", "p7", "2024-01", 0, 0, (123457 : Rat) / 1000000⟩]⟩
     store7 (by decide!) (by decide!)⟩

/-- C8: the overview aggregation returns null success_rate and null
avg_latency_ms (not zero, not an error) when no usage event matches the
filter; when events match, success_rate is the number of matching events
with status_code < 400 divided by the total count, and avg_latency_ms is
the arithmetic mean of the non-null latencies, null when none carry a
latency. -/
theorem claim8_overview_nulls (st : Store) (bounds : Option (Int × Int)) :
    (st.events.filter (overviewFilter bounds) = [] →
      (overviewCore st bounds).success_rate = none ∧
      (overviewCore st bounds).avg_latency_ms = none) ∧
    (st.events.filter (overviewFilter bounds) ≠ [] →
      (overviewCore st bounds).success_rate = some
        ((((st.events.filter (overviewFilter bounds)).filter
            (fun ev => decide (ev.status_code < 400))).length : Rat) /
          ((st.events.filter (overviewFilter bounds)).length : Rat)) ∧
      ((st.events.filter (overviewFilter bounds)).filterMap
          (fun ev => ev.latency_ms) = ([] : List Int) →
        (overviewCore st bounds).avg_latency_ms = none) ∧
      (∀ (z : Int) (zs : List Int),
        (st.events.filter (overviewFilter bounds)).filterMap
            (fun ev => ev.latency_ms) = z :: zs →
        (overviewCore st bounds).avg_latency_ms =
          some (((z :: zs).map (fun w => (w : Rat))).sum / ((z :: zs).length : Rat)))) := by
  cases hm : st.events.filter (overviewFilter bounds) with
  | nil =>
    refine ⟨fun _ => ?_, fun hne => absurd rfl hne⟩
    constructor <;> simp [overviewCore, hm]
  | cons z0 zs0 =>
    refine ⟨fun habs => absurd habs (List.cons_ne_nil z0 zs0), fun _ => ?_⟩
    refine ⟨?_, ?_, ?_⟩
    · simp [overviewCore, hm]
    · intro hl
      simp only [overviewCore]
      rw [hm, hl]
      simp
    · intro z zs hl
      simp only [overviewCore]
      rw [hm, hl]
      simp

/-- Witness for C8: the empty store yields the two nulls; storeA without a
time filter yields success rate 4/7 and average latency 78. -/
theorem claim8_witness :
    (overviewCore storeEmpty none).success_rate = none ∧
    (overviewCore storeEmpty none).avg_latency_ms = none ∧
    (overviewCore storeA none).success_rate = some ((4 : Rat) / 7) ∧
    (overviewCore storeA none).avg_latency_ms = some 78 := by
  have h1 := (claim8_overview_nulls storeEmpty none).1 (by decide!)
  have h2 := (claim8_overview_nulls storeA none).2 (by decide!)
  refine ⟨h1.1, h1.2, ?_, ?_⟩
  · rw [h2.1]
    decide!
  · have h3 := h2.2.2 100 [140, 60, 10, 80] (by decide!)
    rw [h3]
    decide!

end GatewayChargeback
